import Mathlib

/-!
Verification development for the mmcp_client serial frame codec
(src/src/main.rs). The codec builds a fixed 16-byte frame from a
destination address, an opcode and an 8-byte payload, with a
complement-of-sum checksum. Bytes are modelled as `Nat` with explicit
`% 256` where the Rust code uses wrapping `u8` arithmetic.
-/

namespace Mmcp

/-- Bitwise NOT at 8-bit width: for `x < 256` this is the `u8`
complement `!x` of the Rust code. -/
def not8 (x : Nat) : Nat := x ^^^ 255

/-- The checksum fold of `MsgBuilder::build` (main.rs lines 90-93):
fold with `u8` wrapping addition starting from 0, then complement.
The Rust closure names its accumulator `i` and its element `acc`. -/
def checksum (bytes : List Nat) : Nat :=
  not8 (bytes.foldl (fun i acc => (i + acc) % 256) 0)

/-- `MsgBuilder` (main.rs lines 67-75); the Rust field `from` is a Lean
keyword, rendered `from_`. The 8-byte array `l7_sdu : [u8; 8]` is a
list of bytes. -/
structure MsgBuilder where
  to' : Nat
  from_ : Nat
  hops : Nat
  version : Nat
  opcode : Nat
  l7_sdu : List Nat

/-- `MsgBuilder::new` (main.rs lines 78-87): fixed `from = 0`,
`version = 4`, `hops = 0`. -/
def MsgBuilder.new (to' opcode : Nat) (l7_sdu : List Nat) : MsgBuilder :=
  { to' := to'
    from_ := 0
    version := 4
    hops := 0
    opcode := opcode
    l7_sdu := l7_sdu }

/-- `MsgBuilder::build_with_checksum` (main.rs lines 98-117): the
16-byte frame layout. Array indexing `l7_sdu[i]` becomes `getD i 0`. -/
def MsgBuilder.build_with_checksum (self : MsgBuilder) (check_sum : Nat) : List Nat :=
  [ 0
  , self.to'
  , self.from_
  , self.version
  , self.hops
  , self.opcode
  , self.l7_sdu.getD 0 0
  , self.l7_sdu.getD 1 0
  , self.l7_sdu.getD 2 0
  , self.l7_sdu.getD 3 0
  , self.l7_sdu.getD 4 0
  , self.l7_sdu.getD 5 0
  , self.l7_sdu.getD 6 0
  , self.l7_sdu.getD 7 0
  , check_sum
  , 0 ]

/-- `MsgBuilder::build` (main.rs lines 89-96): checksum over
`[to, from, version, hops, opcode]` chained with the payload. -/
def MsgBuilder.build (self : MsgBuilder) : List Nat :=
  let check_sum :=
    checksum ([self.to', self.from_, self.version, self.hops, self.opcode] ++ self.l7_sdu)
  self.build_with_checksum check_sum

/-- The spec's `encode(to, opcode, payload)` operation:
`MsgBuilder::new` followed by `build`. -/
def encode (to' opcode : Nat) (payload : List Nat) : List Nat :=
  (MsgBuilder.new to' opcode payload).build

/-- Modelled from the spec: the reference exposes no decode; callers
index the response buffer directly. The spec's symmetric decode
extracts `to` (offset 1), `opcode` (offset 5) and the payload
(offsets 6-13) from a frame. -/
def decode (bytes : List Nat) : Nat × Nat × List Nat :=
  (bytes.getD 1 0, bytes.getD 5 0, (bytes.drop 6).take 8)

/-- `LedState` (main.rs lines 169-173). -/
inductive LedState where
  | On : LedState
  | Off : LedState
deriving DecidableEq

/-- `SetLed` command arguments (main.rs lines 153-156). -/
structure SetLed where
  on' : LedState

/-- `SetLed::as_sdu` (main.rs lines 158-167): default all-zero SDU,
byte 7 set to 1 when the state is `On`. -/
def SetLed.as_sdu (self : SetLed) : List Nat :=
  let sdu := List.replicate 8 0
  if self.on' = LedState.On then sdu.set 7 1 else sdu

/-- `Raw` command arguments (main.rs lines 148-151). -/
structure Raw where
  bytes : List Nat

/-- `Command` (main.rs lines 140-146). -/
inductive Command where
  | Raw : Raw → Command
  | SetLed : SetLed → Command
  | ReadButtonPresses : Command
  | ReadUid : Command

/-- `CliArgs` (main.rs lines 124-138). -/
structure CliArgs where
  device : String
  id : Nat
  echo : Bool
  baud_rate : Nat
  timeout : Nat
  cmd : Command

/-- Observable effect of one `run` invocation: whether the raw-length
warning was printed, the bytes written to the serial port, and the
button count printed to stdout (when any). -/
structure RunEffect where
  warned : Bool
  written : List Nat
  printed : Option Nat
deriving DecidableEq

/-- `run` (main.rs lines 23-65), with the serial port abstracted: the
16-byte buffer read back is the `response` argument, writes and prints
are collected in `RunEffect`, and the `todo!()` panic of the `ReadUid`
arm (line 57) is an `Except.error`. The `echo` diagnostics on stderr
do not alter the written bytes and are not modelled. -/
def run (args : CliArgs) (response : List Nat) : Except String RunEffect :=
  match args.cmd with
  | Command.Raw raw =>
      Except.ok ⟨raw.bytes.length != 16, raw.bytes, none⟩
  | Command.SetLed set_led =>
      Except.ok ⟨false, (MsgBuilder.new args.id 100 set_led.as_sdu).build, none⟩
  | Command.ReadButtonPresses =>
      Except.ok ⟨false, (MsgBuilder.new args.id 101 (List.replicate 8 0)).build,
        some (response.getD 13 0)⟩
  | Command.ReadUid => Except.error "not yet implemented"

/- ## Helper lemmas -/

/-- The wrapping fold started at a reduced accumulator computes the
sum modulo 256. -/
theorem foldl_wrap_eq_sum_mod (l : List Nat) :
    ∀ a : Nat, l.foldl (fun i acc => (i + acc) % 256) (a % 256) = (a + l.sum) % 256 := by
  induction l with
  | nil => intro a; simp
  | cons b t ih =>
      intro a
      simp only [List.foldl_cons, List.sum_cons]
      have h1 : (a % 256 + b) % 256 = (a + b) % 256 := by omega
      rw [h1, ih (a + b)]
      omega

set_option maxRecDepth 2000 in
/-- Complement at width 8 is subtraction from 255 on bytes. -/
theorem not8_eq_sub : ∀ x < 256, not8 x = 255 - x := by decide

/-- The wrapping fold from accumulator 0 is the sum modulo 256. -/
theorem foldl_wrap_zero (l : List Nat) :
    l.foldl (fun i acc => (i + acc) % 256) 0 = l.sum % 256 := by
  simpa using foldl_wrap_eq_sum_mod l 0

/-- Closed form of the checksum fold. -/
theorem checksum_eq (bytes : List Nat) : checksum bytes = 255 - bytes.sum % 256 := by
  rw [checksum, foldl_wrap_zero, not8_eq_sub (bytes.sum % 256) (Nat.mod_lt _ (by omega))]

/- ## Claim theorems -/

/-- C1: for every finite byte sequence, the checksum is the bitwise
complement of the mod-256 sum of the bytes: the fold with unsigned
8-bit wraparound followed by bitwise NOT satisfies
`checksum bytes = 255 - bytes.sum % 256`. -/
theorem C1_checksum_is_complement_of_sum (bytes : List Nat) :
    checksum bytes = 255 - bytes.sum % 256 :=
  checksum_eq bytes

/-- C2: for every destination, opcode and 8-byte payload, `encode`
yields exactly 16 bytes with 0 at offsets 0 and 15, the destination at
offset 1, the opcode at offset 5 and the payload at offsets 6-13 in
order, and the field-extracting `decode` recovers destination, opcode
and payload unchanged. -/
theorem C2_encode_layout_and_roundtrip
    (to' opcode p0 p1 p2 p3 p4 p5 p6 p7 : Nat) :
    (encode to' opcode [p0, p1, p2, p3, p4, p5, p6, p7]).length = 16 ∧
    (encode to' opcode [p0, p1, p2, p3, p4, p5, p6, p7]).getD 0 0 = 0 ∧
    (encode to' opcode [p0, p1, p2, p3, p4, p5, p6, p7]).getD 15 0 = 0 ∧
    (encode to' opcode [p0, p1, p2, p3, p4, p5, p6, p7]).getD 1 0 = to' ∧
    (encode to' opcode [p0, p1, p2, p3, p4, p5, p6, p7]).getD 5 0 = opcode ∧
    (encode to' opcode [p0, p1, p2, p3, p4, p5, p6, p7]).getD 6 0 = p0 ∧
    (encode to' opcode [p0, p1, p2, p3, p4, p5, p6, p7]).getD 7 0 = p1 ∧
    (encode to' opcode [p0, p1, p2, p3, p4, p5, p6, p7]).getD 8 0 = p2 ∧
    (encode to' opcode [p0, p1, p2, p3, p4, p5, p6, p7]).getD 9 0 = p3 ∧
    (encode to' opcode [p0, p1, p2, p3, p4, p5, p6, p7]).getD 10 0 = p4 ∧
    (encode to' opcode [p0, p1, p2, p3, p4, p5, p6, p7]).getD 11 0 = p5 ∧
    (encode to' opcode [p0, p1, p2, p3, p4, p5, p6, p7]).getD 12 0 = p6 ∧
    (encode to' opcode [p0, p1, p2, p3, p4, p5, p6, p7]).getD 13 0 = p7 ∧
    decode (encode to' opcode [p0, p1, p2, p3, p4, p5, p6, p7]) =
      (to', opcode, [p0, p1, p2, p3, p4, p5, p6, p7]) :=
  ⟨rfl, rfl, rfl, rfl, rfl, rfl, rfl, rfl, rfl, rfl, rfl, rfl, rfl, rfl⟩

/-- C3: for every destination, opcode and payload, the encoded frame
carries the fixed values `from = 0` at offset 2, `version = 4` at
offset 3 and `hops = 0` at offset 4. -/
theorem C3_fixed_from_version_hops (to' opcode : Nat) (payload : List Nat) :
    (encode to' opcode payload).getD 2 0 = 0 ∧
    (encode to' opcode payload).getD 3 0 = 4 ∧
    (encode to' opcode payload).getD 4 0 = 0 :=
  ⟨rfl, rfl, rfl⟩

/-- C4: `SetLed` encodes payload byte 7 as 1 for `On` and 0 for `Off`
with all other payload bytes 0, and with opcode 100; in particular
`SetLed(On)` with destination 7 writes exactly the frame
`[0,7,0,4,0,100,0,0,0,0,0,0,0,1,143,0]` with checksum 143. -/
theorem C4_set_led_frame
    (device : String) (echo : Bool) (baud_rate timeout : Nat) (response : List Nat) :
    SetLed.as_sdu ⟨LedState.On⟩ = [0, 0, 0, 0, 0, 0, 0, 1] ∧
    SetLed.as_sdu ⟨LedState.Off⟩ = [0, 0, 0, 0, 0, 0, 0, 0] ∧
    run ⟨device, 7, echo, baud_rate, timeout, Command.SetLed ⟨LedState.On⟩⟩ response =
      Except.ok ⟨false, [0, 7, 0, 4, 0, 100, 0, 0, 0, 0, 0, 0, 0, 1, 143, 0], none⟩ := by
  refine ⟨rfl, rfl, ?_⟩
  simp [run, MsgBuilder.build, MsgBuilder.new, MsgBuilder.build_with_checksum, checksum,
    SetLed.as_sdu, not8]

/-- C5: `ReadButtonPresses` writes a 16-byte frame with opcode 101 and
an all-zero payload, and prints the button count taken from byte 13 of
the response buffer. -/
theorem C5_read_button_presses
    (device : String) (id : Nat) (echo : Bool) (baud_rate timeout : Nat)
    (response : List Nat) :
    ∃ eff : RunEffect,
      run ⟨device, id, echo, baud_rate, timeout, Command.ReadButtonPresses⟩ response =
        Except.ok eff ∧
      eff.written.length = 16 ∧
      eff.written.getD 5 0 = 101 ∧
      (eff.written.drop 6).take 8 = List.replicate 8 0 ∧
      eff.printed = some (response.getD 13 0) :=
  ⟨_, rfl, rfl, rfl, rfl, rfl⟩

/-- C6: `ReadUid` fails immediately with an explicit not-implemented
error; no frame is built and nothing is written to the serial port. -/
theorem C6_read_uid_unimplemented
    (device : String) (id : Nat) (echo : Bool) (baud_rate timeout : Nat)
    (response : List Nat) :
    run ⟨device, id, echo, baud_rate, timeout, Command.ReadUid⟩ response =
      Except.error "not yet implemented" :=
  rfl

/-- C7: in Raw mode the caller's bytes are always transmitted
unchanged and the invocation succeeds; the length warning fires
exactly when the length differs from 16. -/
theorem C7_raw_warn_but_send
    (device : String) (id : Nat) (echo : Bool) (baud_rate timeout : Nat)
    (bytes response : List Nat) :
    ∃ eff : RunEffect,
      run ⟨device, id, echo, baud_rate, timeout, Command.Raw ⟨bytes⟩⟩ response =
        Except.ok eff ∧
      eff.written = bytes ∧
      (eff.warned = true ↔ bytes.length ≠ 16) := by
  refine ⟨⟨bytes.length != 16, bytes, none⟩, rfl, rfl, ?_⟩
  simp

/-- C7 witness: a 15-byte raw input is sent unchanged with the
warning set. -/
theorem C7_raw_warn_but_send_witness :
    ∃ eff : RunEffect,
      run ⟨"/dev/ttyUSB0", 1, false, 115200, 500,
            Command.Raw ⟨[1, 2, 3, 4, 5, 6, 7, 8, 9, 10, 11, 12, 13, 14, 15]⟩⟩
          (List.replicate 16 0) =
        Except.ok eff ∧
      eff.written = [1, 2, 3, 4, 5, 6, 7, 8, 9, 10, 11, 12, 13, 14, 15] ∧
      (eff.warned = true ↔
        ([1, 2, 3, 4, 5, 6, 7, 8, 9, 10, 11, 12, 13, 14, 15] : List Nat).length ≠ 16) :=
  C7_raw_warn_but_send "/dev/ttyUSB0" 1 false 115200 500
    [1, 2, 3, 4, 5, 6, 7, 8, 9, 10, 11, 12, 13, 14, 15] (List.replicate 16 0)

/-- C8: for every destination, opcode and 8-byte payload, the unsigned
8-bit wrapping sum of the 14 frame bytes at offsets 1 through 14
(fields plus checksum) equals 255. -/
theorem C8_receiver_sum_invariant
    (to' opcode p0 p1 p2 p3 p4 p5 p6 p7 : Nat) :
    (((encode to' opcode [p0, p1, p2, p3, p4, p5, p6, p7]).drop 1).take 14).foldl
      (fun i acc => (i + acc) % 256) 0 = 255 := by
  have hdt : ((encode to' opcode [p0, p1, p2, p3, p4, p5, p6, p7]).drop 1).take 14 =
      [to', 0, 4, 0, opcode, p0, p1, p2, p3, p4, p5, p6, p7,
        checksum [to', 0, 4, 0, opcode, p0, p1, p2, p3, p4, p5, p6, p7]] := rfl
  rw [hdt, foldl_wrap_zero, checksum_eq]
  simp only [List.sum_cons, List.sum_nil]
  omega

/-- C9: encoding is deterministic over its logical inputs: equal
destination, opcode and payload give byte-identical frames. -/
theorem C9_encode_deterministic
    (to' opcode : Nat) (payload : List Nat) (to2 opcode2 : Nat) (payload2 : List Nat)
    (h1 : to' = to2) (h2 : opcode = opcode2) (h3 : payload = payload2) :
    encode to' opcode payload = encode to2 opcode2 payload2 := by
  rw [h1, h2, h3]

/-- C9 witness: two encodes of the same concrete inputs agree. -/
theorem C9_encode_deterministic_witness :
    encode 7 100 [0, 0, 0, 0, 0, 0, 0, 1] = encode 7 100 [0, 0, 0, 0, 0, 0, 0, 1] :=
  C9_encode_deterministic 7 100 [0, 0, 0, 0, 0, 0, 0, 1]
    7 100 [0, 0, 0, 0, 0, 0, 0, 1] rfl rfl rfl

/-- C10: the bytes written for `SetLed` and `ReadButtonPresses` depend
only on the destination id and the command: invocations differing in
device path, echo flag, baud rate, timeout or response buffer write
identical frames. -/
theorem C10_written_bytes_transport_independent
    (id : Nat) (set_led : SetLed)
    (device device2 : String) (echo echo2 : Bool)
    (baud_rate baud_rate2 timeout timeout2 : Nat)
    (response response2 : List Nat) :
    (∃ eff eff2 : RunEffect,
      run ⟨device, id, echo, baud_rate, timeout, Command.SetLed set_led⟩ response =
        Except.ok eff ∧
      run ⟨device2, id, echo2, baud_rate2, timeout2, Command.SetLed set_led⟩ response2 =
        Except.ok eff2 ∧
      eff.written = eff2.written) ∧
    (∃ eff eff2 : RunEffect,
      run ⟨device, id, echo, baud_rate, timeout, Command.ReadButtonPresses⟩ response =
        Except.ok eff ∧
      run ⟨device2, id, echo2, baud_rate2, timeout2, Command.ReadButtonPresses⟩ response2 =
        Except.ok eff2 ∧
      eff.written = eff2.written) := by
  refine ⟨⟨_, _, rfl, rfl, rfl⟩, ⟨_, _, rfl, rfl, rfl⟩⟩

end Mmcp
